import Mathlib

/-!
Verification of the RFP answer-generation pipeline (Django backend).

Shallow embedding of the core pipeline code:
  Backend/rag_engine/rag_pipeline.py      (RAGEngine: confidence scoring,
                                           answer generation, question extraction)
  Backend/rag_engine/document_extractor.py (DocumentExtractor.chunk_text)
  Backend/questions/tasks.py              (Celery stage tasks, progress updates,
                                           finalization)
  Backend/questions/views.py              (threading fallback path, answer edit)
  Backend/questions/models.py             (Question, Answer, ProcessingTask rows)

Python floats are modelled as exact rationals, Python ints as Int or Nat,
optional values as Option, and external service results (LLM output, vector
search results, ChromaDB success flags) as explicit parameters.
-/

/-! ## Rounding: model of Python round(x, 2) (round-half-to-even) -/

/-- Round a rational to the nearest integer, ties to the even integer.
This models Python built-in round on an exactly representable value. -/
def roundHalfEven (y : ℚ) : ℤ :=
  if y - ⌊y⌋ < 1/2 then ⌊y⌋
  else if 1/2 < y - ⌊y⌋ then ⌊y⌋ + 1
  else if ⌊y⌋ % 2 = 0 then ⌊y⌋ else ⌊y⌋ + 1

/-- Model of Python round(x, 2): round 100 x half-to-even, divide by 100. -/
def round2 (x : ℚ) : ℚ := (roundHalfEven (100 * x) : ℚ) / 100

/-! ## ConfidenceScorer (rag_pipeline.py, RAGEngine.generate_answer step 4) -/

/-- Piecewise confidence formula of rag_pipeline.py, before clamping:
high (avg ≥ 0.8), medium (≥ 0.6), low (≥ 0.4), very low bands. -/
def confidenceRaw (avg : ℚ) : ℚ :=
  if 0.8 ≤ avg then 0.85 + (avg - 0.8) * 0.5
  else if 0.6 ≤ avg then 0.70 + (avg - 0.6) * 0.75
  else if 0.4 ≤ avg then 0.55 + (avg - 0.4) * 0.75
  else 0.40 + avg * 0.375

/-- Clamp of rag_pipeline.py: confidence = max(0.4, min(0.95, confidence)). -/
def clampConfidence (c : ℚ) : ℚ := max 0.4 (min 0.95 c)

/-- Full confidence scorer: piecewise formula, clamp, then round(·, 2). -/
def confidenceScore (avg : ℚ) : ℚ := round2 (clampConfidence (confidenceRaw avg))

/-! ## Answer generation (rag_pipeline.py, RAGEngine.generate_answer) -/

/-- One vector-store search hit as returned by VectorStore.search:
document text, metadata (document_id, chunk_index) and cosine distance.
A missing distance (ChromaDB omitting the distances key) is none. -/
structure SearchResult where
  document : String
  metadata_document_id : Nat
  metadata_chunk_index : Nat
  distance : Option ℚ
deriving DecidableEq, Repr

/-- Line 183 of rag_pipeline.py: distance = result[...] if result[...] else 1.0.
A falsy distance (none or exactly 0) is replaced by 1.0. -/
def sourceDistance (d : Option ℚ) : ℚ :=
  match d with
  | some x => if x = 0 then 1 else x
  | none => 1

/-- Line 185 of rag_pipeline.py: similarity = max(0.0, min(1.0, 1.0 - distance/2)). -/
def similarityOfDistance (d : Option ℚ) : ℚ :=
  max 0 (min 1 (1 - sourceDistance d / 2))

/-- Entry of the sources list built in generate_answer. -/
structure SourceRef where
  document_id : Nat
  chunk_index : Nat
  relevance_score : ℚ
deriving DecidableEq, Repr

/-- Result dictionary of RAGEngine.generate_answer. -/
structure GenAnswer where
  answer : String
  confidence : ℚ
  sources : List SourceRef
deriving DecidableEq, Repr

def mkSourceRef (r : SearchResult) : SourceRef :=
  { document_id := r.metadata_document_id
    chunk_index := r.metadata_chunk_index
    relevance_score := similarityOfDistance r.distance }

/-- avg_relevance = sum(relevance_score) / len(sources) if sources else 0. -/
def avgRelevance (sources : List SourceRef) : ℚ :=
  if sources = [] then 0
  else (sources.map (fun s => s.relevance_score)).sum / sources.length

/-- RAGEngine.generate_answer (rag_pipeline.py lines 133-262) with all four
return paths: the no-client guard of lines 150-156, the zero-match return
of lines 168-174 (reached before any LLM call), the normal path of lines
176-254, and the except handler of lines 256-262. clientConfigured models
self.client being set; llmCompletion is the chat completion call outcome,
an error message when the call (or anything after retrieval) raised. -/
def generate_answer (clientConfigured : Bool) (searchResults : List SearchResult)
    (llmCompletion : Except String String) : GenAnswer :=
  if !clientConfigured then
    { answer := "Error: OpenAI API key not configured"
      confidence := 0
      sources := [] }
  else if searchResults = [] then
    { answer := "No relevant information found in the knowledge base."
      confidence := 0
      sources := [] }
  else
    match llmCompletion with
    | Except.error msg =>
      { answer := "Error generating answer: " ++ msg
        confidence := 0
        sources := [] }
    | Except.ok completion =>
      let sources := searchResults.map mkSourceRef
      { answer := completion.trim
        confidence := confidenceScore (avgRelevance sources)
        sources := sources.take 3 }

/-- Similarity conversion as the spec words it: s = clamp(1 - d/2, 0, 1),
stated directly on the raw distance d (no special case at d = 0). -/
def specSimilarity (d : ℚ) : ℚ := max 0 (min 1 (1 - d / 2))

/-- Confidence table as the spec words it (§4.5), before clamp and rounding. -/
def specConfidenceTable (avg : ℚ) : ℚ :=
  if 0.8 ≤ avg then 0.85 + (avg - 0.8) * 0.5
  else if 0.6 ≤ avg then 0.70 + (avg - 0.6) * 0.75
  else if 0.4 ≤ avg then 0.55 + (avg - 0.4) * 0.75
  else 0.40 + avg * 0.375

/-! ## ProcessingTask record and progress updates (models.py, tasks.py, views.py) -/

/-- Answer payload dictionary collected in answers_data / collect_answers_results. -/
structure AnswerData where
  id : Nat
  question : Nat
  question_text : String
  question_number : Nat
  answer_text : String
  confidence_score : ℚ
  source_documents : List SourceRef
  edited : Bool
deriving DecidableEq, Repr

/-- result payload written by finalize_task. -/
structure TaskResult where
  rfp_document_id : Nat
  questions_count : Nat
  answers_count : Nat
  answers : List AnswerData
deriving DecidableEq, Repr

/-- ProcessingTask row (models.py): the fields the pipeline mutates. -/
structure TaskRec where
  status : String
  progress : Nat
  current_step : String
  error : Option String
  result : Option TaskResult
deriving DecidableEq, Repr

/-- The f-string Generated completed/total answers, used by both paths. -/
def genStepLabel (completed total : Nat) : String :=
  "Generated " ++ toString completed ++ "/" ++ toString total ++ " answers"

/-- Progress update of tasks.py generate_answer_for_question (lines 162-175):
progress = 50 + int((completed_count / total_questions) * 45) where
completed_count is the count of Answer rows stored so far for the document. -/
def celeryAnswerProgressUpdate (task : TaskRec) (completed_count total_questions : Nat) : TaskRec :=
  { task with
    progress := 50 + completed_count * 45 / total_questions
    current_step := genStepLabel completed_count total_questions }

/-- Progress update of views.py process_single_question (lines 435-441):
progress = 50 + int((completed_count / N) * 50) under the progress lock. -/
def threadingAnswerProgressUpdate (task : TaskRec) (completed_count total : Nat) : TaskRec :=
  { task with
    progress := 50 + completed_count * 50 / total
    current_step := genStepLabel completed_count total }

/-- tasks.py finalize_task: status completed, progress 100, result payload. -/
def finalize_task (task : TaskRec) (rfp_document_id : Nat)
    (question_ids : List Nat) (answers_data : List AnswerData) : TaskRec :=
  { task with
    status := "completed"
    progress := 100
    current_step := "Processing complete"
    result := some
      { rfp_document_id := rfp_document_id
        questions_count := question_ids.length
        answers_count := answers_data.length
        answers := answers_data } }

/-! ## Celery generation fan-out (tasks.py generate_answer_for_question + chord) -/

/-- Outcome of one answer-generation attempt after the retry policy has run:
either a success payload, or all retries exhausted. -/
inductive GenOutcome where
  | success (a : AnswerData)
  | retriesExhausted
deriving DecidableEq, Repr

/-- tasks.py generate_answer_for_question, lines 188-193: a successful attempt
returns the success dictionary; on MaxRetriesExceededError the handler
re-raises instead of returning a failure record, modelled as Except.error. -/
def generate_answer_for_question : GenOutcome → Except String AnswerData
  | GenOutcome.success a => Except.ok a
  | GenOutcome.retriesExhausted => Except.error "MaxRetriesExceededError"

/-- Celery chord semantics (external collaborator): the callback
collect_answers_results → finalize_task runs only when every header task
returned a value; if any header task raised, the callback is never invoked
and the ProcessingTask row is left untouched by the generation stage. -/
def celeryChordGenerate (task : TaskRec) (rfp_document_id : Nat)
    (question_ids : List Nat) (outcomes : List GenOutcome) : TaskRec :=
  let headerResults := outcomes.map generate_answer_for_question
  if headerResults.all (fun r => r.toOption.isSome) then
    finalize_task task rfp_document_id question_ids
      (headerResults.filterMap (fun r => r.toOption))
  else
    task

/-- views.py threading path, generate stage (lines 446-464): every
per-question exception is caught and turned into None, results are the
non-None payloads, and the task is always finalized as completed. -/
def threadingGeneratePhase (task : TaskRec) (rfp_document_id : Nat)
    (question_ids : List Nat) (outcomes : List GenOutcome) : TaskRec :=
  let answers_data := outcomes.filterMap (fun o =>
    match o with
    | GenOutcome.success a => some a
    | GenOutcome.retriesExhausted => none)
  { task with
    status := "completed"
    progress := 100
    current_step := "Processing complete"
    result := some
      { rfp_document_id := rfp_document_id
        questions_count := question_ids.length
        answers_count := answers_data.length
        answers := answers_data } }

/-! ## Answer rows: upsert-by-question and manual edit (tasks.py, views.py, models.py) -/

/-- Answer row (models.py): OneToOne with Question, edited flag, timestamps
as abstract ticks. -/
structure AnswerRec where
  answer_text : String
  confidence_score : ℚ
  source_documents : List SourceRef
  edited : Bool
  edited_at : Option Nat
  generated_at : Nat
deriving DecidableEq, Repr

/-- Answer.objects.update_or_create(question=..., defaults=...) as used by
both generation paths: on an existing row only answer_text,
confidence_score, source_documents and generated_at are written; edited and
edited_at are not part of defaults. A fresh row gets the model defaults
edited = False, edited_at = None. -/
def answerUpsert (existing : Option AnswerRec) (r : GenAnswer) (now : Nat) : AnswerRec :=
  match existing with
  | some a =>
    { a with
      answer_text := r.answer
      confidence_score := r.confidence
      source_documents := r.sources
      generated_at := now }
  | none =>
    { answer_text := r.answer
      confidence_score := r.confidence
      source_documents := r.sources
      edited := false
      edited_at := none
      generated_at := now }

/-- views.py AnswerViewSet.edit (lines 267-285): set the new text, mark
edited = True and bump edited_at. -/
def editAnswer (a : AnswerRec) (new_text : String) (now : Nat) : AnswerRec :=
  { a with answer_text := new_text, edited := true, edited_at := some now }

/-! ## Question rows and re-extraction (models.py, tasks.py extract_and_generate_step) -/

/-- Question row (models.py): ForeignKey to the RFP document, CASCADE delete. -/
structure QuestionRow where
  id : Nat
  rfp_document : Nat
  question_text : String
  question_number : Nat
deriving DecidableEq, Repr

/-- Answer row reference for cascade purposes: OneToOne(question, CASCADE). -/
structure AnswerRow where
  id : Nat
  question : Nat
deriving DecidableEq, Repr

/-- The question and answer tables. -/
structure QADb where
  questions : List QuestionRow
  answers : List AnswerRow
deriving DecidableEq, Repr

/-- Question.objects.filter(rfp_document=doc).delete(): removes the matching
question rows and, by the CASCADE on Answer.question, every answer row
attached to one of them. -/
def deleteQuestionsCascade (db : QADb) (doc : Nat) : QADb :=
  let deletedIds := (db.questions.filter (fun q => q.rfp_document == doc)).map (fun q => q.id)
  { questions := db.questions.filter (fun q => !(q.rfp_document == doc))
    answers := db.answers.filter (fun a => !(deletedIds.contains a.question)) }

/-- The creation loop for i, q in enumerate(extracted_questions, 1):
fresh ids from the autoincrement counter, question_number = i. -/
def createQuestions (doc : Nat) : Nat → Nat → List String → List QuestionRow
  | _, _, [] => []
  | nextId, num, t :: ts =>
    { id := nextId, rfp_document := doc, question_text := t, question_number := num } ::
      createQuestions doc (nextId + 1) (num + 1) ts

/-- Lines 262-273 of tasks.py (same shape in views.py): clear existing
questions for the RFP document, then create the fresh numbered set. -/
def reextractQuestions (db : QADb) (doc : Nat) (extracted : List String) (nextId : Nat) : QADb :=
  let db1 := deleteQuestionsCascade db doc
  { db1 with questions := db1.questions ++ createQuestions doc nextId 1 extracted }

/-! ## Question extraction from RFP text (rag_pipeline.py) -/

/-- Python split(".", 1)[1].strip() after a numbered prefix: drop through the
first dot, then strip. -/
def stripLeadingNumber (line : String) : String :=
  if line ≠ "" ∧ line.front.isDigit ∧ (line.take 5).contains (Char.ofNat 46) then
    (String.mk ((line.toList.dropWhile (fun c => c ≠ Char.ofNat 46)).drop 1)).trim
  else line

/-- Parsing of the LLM completion in extract_questions_from_rfp: split on
newlines, strip, drop empties, strip leading ordinals, keep lines longer
than 10 characters. Only the question texts are kept (the q_k ids carry no
information). -/
def parseLLMQuestions (content : String) : List String :=
  ((content.trim.splitOn "\n").map String.trim).filterMap (fun line =>
    if line = "" then none
    else
      let stripped := stripLeadingNumber line
      if stripped ≠ "" ∧ stripped.length > 10 then some stripped else none)

/-- The dedup-and-filter loop of _fallback_question_extraction, walking the
combined candidate list with a seen set. -/
def fallbackDedup : List String → List String → List String
  | [], _ => []
  | q :: rest, seen =>
    let t := q.trim
    if t ≠ "" ∧ t.length > 10 ∧ !(seen.contains t) then
      t :: fallbackDedup rest (t :: seen)
    else fallbackDedup rest seen

/-- _fallback_question_extraction: candidates is the concatenation of the
regex matches (lines ending in a question mark, then numbered items); the
surviving questions are deduplicated, length-filtered and capped at 50. -/
def fallback_question_extraction (candidates : List String) : List String :=
  (fallbackDedup candidates []).take 50

/-- extract_questions_from_rfp: llmContent is the LLM completion when the
client exists and the call succeeded (none models a missing client or a
raised exception, both of which fall back); an empty parse also falls back
to the regex extraction. -/
def extract_questions_from_rfp (llmContent : Option String)
    (fallbackCandidates : List String) : List String :=
  match llmContent with
  | none => fallback_question_extraction fallbackCandidates
  | some content =>
    let qs := parseLLMQuestions content
    if qs = [] then fallback_question_extraction fallbackCandidates else qs

/-- Python truthiness of an optional extracted text: None and the empty
string are falsy (the if not text check). -/
def pyTextTruthy (t : Option String) : Bool :=
  match t with
  | none => false
  | some s => !s.isEmpty

/-- External inputs of the Extract stage: the TextExtractor result, the raw
LLM completion (none if the call failed) and the regex candidate matches. -/
structure ExtractInputs where
  text : Option String
  llmContent : Option String
  fallbackCandidates : List String
deriving Repr

/-- tasks.py extract_and_generate_step, Extract portion (lines 242-283 plus
the except handler of lines 305-311): a falsy extracted text or an empty
question list raises, which the handler turns into status failed with the
error message recorded; otherwise prior questions are replaced and progress
reaches 50. The same control flow appears in views.py
_process_rfp_background (lines 335-380 and its outer except). -/
def extract_and_generate_step (task : TaskRec) (db : QADb)
    (rfp_document_id : Nat) (inp : ExtractInputs) (nextId : Nat) : TaskRec × QADb :=
  let task := { task with current_step := "Extracting questions from RFP", progress := 40 }
  if !(pyTextTruthy inp.text) then
    ({ task with status := "failed", error := some "Failed to extract text from RFP document" }, db)
  else
    let qs := extract_questions_from_rfp inp.llmContent inp.fallbackCandidates
    if qs = [] then
      ({ task with status := "failed", error := some "No questions found in RFP document" }, db)
    else
      ({ task with progress := 50 }, reextractQuestions db rfp_document_id qs nextId)

/-! ## Knowledge-base ingestion (tasks.py process_kb_documents_step, vector_store.py) -/

/-- Knowledge-base Document row: the fields ingestion touches. -/
structure KBDocRec where
  id : Nat
  processed : Bool
  processed_at : Option Nat
deriving DecidableEq, Repr

/-- Vector store contents: the chunk batches added per document id. -/
structure VectorStoreState where
  entries : List (Nat × List String)
deriving DecidableEq, Repr

/-- VectorStore.add_document: refuses an empty chunk list, otherwise appends
the batch when the external ChromaDB add succeeds (addOk also covers the
initialized flag). -/
def add_document (vs : VectorStoreState) (document_id : Nat)
    (chunks : List String) (addOk : Bool) : VectorStoreState × Bool :=
  if chunks = [] then (vs, false)
  else if addOk then ({ entries := vs.entries ++ [(document_id, chunks)] }, true)
  else (vs, false)

/-- RAGEngine.process_document_for_rag: extract text, chunk it, add to the
vector store; a falsy text or empty chunk list returns False with no state
change. chunks stands for the DocumentExtractor.chunk_text output on the
extracted text. -/
def process_document_for_rag (vs : VectorStoreState) (docId : Nat)
    (text : Option String) (chunks : List String) (addOk : Bool) : VectorStoreState × Bool :=
  if !(pyTextTruthy text) then (vs, false)
  else if chunks = [] then (vs, false)
  else add_document vs docId chunks addOk

/-- External, per-document inputs of one ingestion attempt. -/
structure IngestEnv where
  text : Option String
  chunks : List String
  addOk : Bool
  now : Nat
deriving Repr

/-- Loop body of tasks.py process_kb_documents_step (lines 212-228) for one
document, identical in shape to views.py lines 312-328: a document already
marked processed is skipped outright; otherwise process_document_for_rag
runs and on success the processed flag and timestamp are set. -/
def process_kb_document (env : IngestEnv) (doc : KBDocRec)
    (vs : VectorStoreState) : KBDocRec × VectorStoreState :=
  if doc.processed then (doc, vs)
  else
    let res := process_document_for_rag vs doc.id env.text env.chunks env.addOk
    if res.2 then ({ doc with processed := true, processed_at := some env.now }, res.1)
    else (doc, res.1)

/-! ## Text chunking (document_extractor.py, DocumentExtractor.chunk_text)

Python strings are List Char; Python int indices are Int with the slice
normalization Python applies to negative values. The while loop is given
explicit fuel so that its (non-)termination can be stated. -/

/-- Python slice-index normalization against a string of length len. -/
def pySliceIndex (len : Nat) (i : Int) : Nat :=
  if i < 0 then ((len : Int) + i).toNat
  else min i.toNat len

/-- Python text[lo:hi]. -/
def pySlice (text : List Char) (lo hi : Int) : List Char :=
  let l := pySliceIndex text.length lo
  let h := pySliceIndex text.length hi
  (text.drop l).take (h - l)

/-- Left-to-right scan recording the last position p with lo ≤ p,
p + 2 ≤ hi and the two characters at p equal to the two-character pattern. -/
def scanPairs (a b : Char) (lo hi : Nat) : List Char → Nat → Option Nat → Option Nat
  | c :: d :: rest, p, acc =>
    scanPairs a b lo hi (d :: rest) (p + 1)
      (if lo ≤ p ∧ p + 2 ≤ hi ∧ c = a ∧ d = b then some p else acc)
  | _, _, acc => acc

/-- Python text.rfind(two-character pattern, lo, hi): highest matching index
inside the normalized window, or -1. -/
def pyRfind2 (a b : Char) (text : List Char) (lo hi : Int) : Int :=
  match scanPairs a b (pySliceIndex text.length lo) (pySliceIndex text.length hi) text 0 none with
  | some p => (p : Int)
  | none => -1

/-- Python str.strip() on the whitespace the chunker can meet. -/
def pyStrip (l : List Char) : List Char :=
  ((l.dropWhile Char.isWhitespace).reverse.dropWhile Char.isWhitespace).reverse

/-- Loop body of chunk_text computing end: prefer the last paragraph break
in the window, then the last sentence break (shifted past the dot), else
the hard cut, and use the break only when it lies strictly after start. -/
def chunkEnd (text : List Char) (chunk_size : Nat) (start : Int) : Int :=
  let e : Int := start + chunk_size
  if e < (text.length : Int) then
    let bp := pyRfind2 '\n' '\n' text start e
    let bp2 :=
      if bp = -1 then
        let sb := pyRfind2 (Char.ofNat 46) (Char.ofNat 32) text start e
        if sb ≠ -1 then sb + 1 else -1
      else bp
    if bp2 ≠ -1 ∧ start < bp2 then bp2 else e
  else e

/-- The while loop of chunk_text with explicit fuel: none means the fuel ran
out before the loop exited. -/
def chunkTextAux (text : List Char) (chunk_size chunk_overlap : Nat) :
    Nat → Int → List (List Char) → Option (List (List Char))
  | 0, _, _ => none
  | fuel + 1, start, chunks =>
    if start < (text.length : Int) then
      let e := chunkEnd text chunk_size start
      let chunk := pyStrip (pySlice text start e)
      chunkTextAux text chunk_size chunk_overlap fuel (e - chunk_overlap)
        (if chunk = [] then chunks else chunks ++ [chunk])
    else some chunks

/-- DocumentExtractor.chunk_text: empty text returns [], otherwise the loop
runs from start = 0; the result is some chunks exactly when the loop exits
within the given fuel. -/
def chunk_text (text : List Char) (chunk_size chunk_overlap fuel : Nat) :
    Option (List (List Char)) :=
  if text = [] then some []
  else chunkTextAux text chunk_size chunk_overlap fuel 0 []

/-- Input on which the chunk_text loop never advances: a paragraph break 200
characters in, more than chunk_size characters of text after it. -/
def stallText : List Char :=
  List.replicate 200 'x' ++ '\n' :: '\n' :: List.replicate 801 'y'

/-- Sample ProcessingTask row mid-run, as it stands when the Generate stage
begins. -/
def processingTask50 : TaskRec :=
  { status := "processing"
    progress := 50
    current_step := "Generating answers for 1 questions"
    error := none
    result := none }

/-- Sample question/answer tables: one question (id 5) of RFP document 1
with an answer (id 9), one question (id 6) of document 2 with an answer
(id 8). -/
def sampleQADb : QADb :=
  { questions :=
      [ { id := 5, rfp_document := 1, question_text := "old question", question_number := 1 }
      , { id := 6, rfp_document := 2, question_text := "other document question", question_number := 1 } ]
    answers := [ { id := 9, question := 5 }, { id := 8, question := 6 } ] }

/-! # Theorems -/

/-! ## Rounding and scorer bounds -/

theorem roundHalfEven_ge_floor (y : ℚ) : ⌊y⌋ ≤ roundHalfEven y := by
  unfold roundHalfEven
  split
  · exact le_refl _
  · split
    · exact le_of_lt (lt_add_one _)
    · split
      · exact le_refl _
      · exact le_of_lt (lt_add_one _)

theorem roundHalfEven_le_ceil (y : ℚ) : roundHalfEven y ≤ ⌈y⌉ := by
  unfold roundHalfEven
  by_cases h : y - ⌊y⌋ < 1/2
  · simp only [if_pos h]
    exact Int.floor_le_ceil y
  · have hpos : (0:ℚ) < y - ⌊y⌋ := lt_of_lt_of_le (by norm_num) (le_of_not_lt h)
    have hflt : (⌊y⌋ : ℚ) < y := by linarith
    have hceil : ⌊y⌋ + 1 ≤ ⌈y⌉ := Int.add_one_le_iff.mpr (Int.lt_ceil.mpr hflt)
    simp only [if_neg h]
    split
    · exact hceil
    · split
      · exact le_trans (by omega) hceil
      · exact hceil

theorem round2_bounds (a b : ℤ) (x : ℚ) (h1 : (a:ℚ)/100 ≤ x) (h2 : x ≤ (b:ℚ)/100) :
    (a:ℚ)/100 ≤ round2 x ∧ round2 x ≤ (b:ℚ)/100 := by
  have ha : (a:ℚ) ≤ 100 * x := by linarith
  have hb : 100 * x ≤ (b:ℚ) := by linarith
  have hfa : a ≤ ⌊100 * x⌋ := Int.le_floor.mpr ha
  have hcb : ⌈100 * x⌉ ≤ b := Int.ceil_le.mpr hb
  have hlo : a ≤ roundHalfEven (100 * x) :=
    le_trans hfa (roundHalfEven_ge_floor _)
  have hhi : roundHalfEven (100 * x) ≤ b :=
    le_trans (roundHalfEven_le_ceil _) hcb
  constructor
  · unfold round2
    have : (a:ℚ) ≤ (roundHalfEven (100 * x) : ℚ) := by exact_mod_cast hlo
    linarith
  · unfold round2
    have : ((roundHalfEven (100 * x)) : ℚ) ≤ (b:ℚ) := by exact_mod_cast hhi
    linarith

theorem clampConfidence_mem (c : ℚ) :
    2/5 ≤ clampConfidence c ∧ clampConfidence c ≤ 19/20 := by
  unfold clampConfidence
  constructor
  · have : (2:ℚ)/5 ≤ 0.4 := by norm_num
    exact le_trans this (le_max_left _ _)
  · apply max_le
    · norm_num
    · exact le_trans (min_le_left _ _) (by norm_num)

theorem confidenceScore_mem (avg : ℚ) :
    2/5 ≤ confidenceScore avg ∧ confidenceScore avg ≤ 19/20 := by
  unfold confidenceScore
  have h := clampConfidence_mem (confidenceRaw avg)
  have := round2_bounds 40 95 (clampConfidence (confidenceRaw avg))
    (by push_cast; linarith [h.1]) (by push_cast; linarith [h.2])
  constructor
  · have h40 : ((40:ℤ):ℚ)/100 = 2/5 := by norm_num
    linarith [this.1, h40.le]
  · have h95 : ((95:ℤ):ℚ)/100 = 19/20 := by norm_num
    linarith [this.2]


/-! ## Rounding and scorer evaluation lemmas -/

theorem roundHalfEven_intCast (n : ℤ) : roundHalfEven (n:ℚ) = n := by
  unfold roundHalfEven
  simp only [Int.floor_intCast, sub_self]
  rw [if_pos (by norm_num : (0:ℚ) < 1/2)]

theorem round2_eq_of_eq_int (x : ℚ) (n : ℤ) (h : 100 * x = (n:ℚ)) :
    round2 x = (n:ℚ)/100 := by
  unfold round2
  rw [h, roundHalfEven_intCast]

theorem confidenceScore_one : confidenceScore 1 = 19/20 := by
  have hraw : confidenceRaw 1 = 19/20 := by
    unfold confidenceRaw
    rw [if_pos (by norm_num : (0.8:ℚ) ≤ 1)]
    norm_num
  have hclamp : clampConfidence (19/20) = 19/20 := by
    unfold clampConfidence
    rw [min_eq_right (by norm_num), max_eq_right (by norm_num)]
  unfold confidenceScore
  rw [hraw, hclamp, round2_eq_of_eq_int (19/20) 95 (by norm_num)]
  norm_num

theorem confidenceScore_point_nine : confidenceScore (9/10) = 9/10 := by
  have hraw : confidenceRaw (9/10) = 9/10 := by
    unfold confidenceRaw
    rw [if_pos (by norm_num : (0.8:ℚ) ≤ 9/10)]
    norm_num
  have hclamp : clampConfidence (9/10) = 9/10 := by
    unfold clampConfidence
    rw [min_eq_right (by norm_num), max_eq_right (by norm_num)]
  unfold confidenceScore
  rw [hraw, hclamp, round2_eq_of_eq_int (9/10) 90 (by norm_num)]
  norm_num

/-! ## Claim C3: confidence formula -/

/-- Claim C3 counterexample: at avg_relevance = 1 (all retrieved sources at
the similarity ceiling) the first band formula yields 0.95, outside the
0.85 to 0.90 output range the claim states for that band. -/
theorem confidence_band_high_counterexample :
    confidenceScore 1 = 19/20 ∧ ¬(confidenceScore 1 ≤ 9/10) ∧ (0.8:ℚ) ≤ 1 := by
  refine ⟨confidenceScore_one, ?_, by norm_num⟩
  intro h
  rw [confidenceScore_one] at h
  linarith

/-- Claim C3 (amended): the scorer is exactly the spec table followed by the
clamp to the interval from 0.4 to 0.95 and rounding to 2 decimals; on the
top band (0.8 ≤ avg ≤ 1) the output lies between 0.85 and 0.95 (not 0.90);
avg_relevance = 0.9 yields exactly 0.90. -/
theorem confidence_formula_correct (avg : ℚ) :
    confidenceScore avg = round2 (clampConfidence (specConfidenceTable avg)) ∧
    (0.8 ≤ avg → avg ≤ 1 →
      0.85 ≤ confidenceScore avg ∧ confidenceScore avg ≤ 0.95) ∧
    confidenceScore (9/10) = 9/10 := by
  refine ⟨rfl, ?_, confidenceScore_point_nine⟩
  intro h1 h2
  have hraw : confidenceRaw avg = 0.85 + (avg - 0.8) * 0.5 := by
    unfold confidenceRaw
    rw [if_pos h1]
  have hb1 : (0.85:ℚ) ≤ confidenceRaw avg := by rw [hraw]; nlinarith
  have hb2 : confidenceRaw avg ≤ (0.95:ℚ) := by rw [hraw]; nlinarith
  have hclamp : clampConfidence (confidenceRaw avg) = confidenceRaw avg := by
    unfold clampConfidence
    rw [min_eq_right hb2, max_eq_right (by linarith : (0.4:ℚ) ≤ confidenceRaw avg)]
  have hb := round2_bounds 85 95 (confidenceRaw avg)
    (by push_cast; linarith) (by push_cast; linarith)
  unfold confidenceScore
  rw [hclamp]
  constructor
  · have h85 : ((85:ℤ):ℚ)/100 ≤ round2 (confidenceRaw avg) := hb.1
    push_cast at h85
    linarith
  · have h95 : round2 (confidenceRaw avg) ≤ ((95:ℤ):ℚ)/100 := hb.2
    push_cast at h95
    linarith

/-- Witness for the amended C3 theorem at avg = 0.9. -/
theorem confidence_formula_correct_witness :
    0.85 ≤ confidenceScore (9/10) ∧ confidenceScore (9/10) ≤ 0.95 :=
  (confidence_formula_correct (9/10)).2.1 (by norm_num) (by norm_num)

/-! ## Claim C4: confidence bounds and the zero-source case -/

/-- Claim C4 counterexample: with one retrieved source, an LLM call that
raises lands in the except handler, which returns confidence 0.0 with an
empty sources list even though a source was retrieved; so confidence is
not in [0.4, 0.95] despite a retrieved source, and confidence 0.0 does not
imply zero sources retrieved. -/
theorem llm_error_zero_confidence_counterexample :
    (generate_answer true
      [{ document := "chunk", metadata_document_id := 3
         metadata_chunk_index := 0, distance := some (1/2) }]
      (Except.error "LLM call failed")).confidence = 0 ∧
    ¬(2/5 ≤ (generate_answer true
      [{ document := "chunk", metadata_document_id := 3
         metadata_chunk_index := 0, distance := some (1/2) }]
      (Except.error "LLM call failed")).confidence) ∧
    ([{ document := "chunk", metadata_document_id := 3
        metadata_chunk_index := 0, distance := some (1/2) }] : List SearchResult) ≠ [] := by
  have h0 : (generate_answer true
      [{ document := "chunk", metadata_document_id := 3
         metadata_chunk_index := 0, distance := some (1/2) }]
      (Except.error "LLM call failed")).confidence = 0 := rfl
  refine ⟨h0, ?_, by simp⟩
  intro hle
  rw [h0] at hle
  norm_num at hle

/-- Claim C4 (amended): when the client is configured and the LLM call
returns, the confidence lies in the interval from 0.4 to 0.95 whenever at
least one source is retrieved, equals 0.0 exactly when zero sources are
retrieved, and the zero-match case is exactly the fixed no-information
result produced before any LLM call; the no-client guard and the except
handler instead return confidence 0.0 with an empty sources list even when
sources were retrieved. -/
theorem confidence_bounds_all_paths (results : List SearchResult) (completion : String) :
    (results = [] → generate_answer true results (Except.ok completion) =
      { answer := "No relevant information found in the knowledge base."
        confidence := 0
        sources := [] }) ∧
    (results ≠ [] →
      2/5 ≤ (generate_answer true results (Except.ok completion)).confidence ∧
      (generate_answer true results (Except.ok completion)).confidence ≤ 19/20) ∧
    ((generate_answer true results (Except.ok completion)).confidence = 0 ↔ results = []) ∧
    (∀ msg, (generate_answer true results (Except.error msg)).confidence = 0 ∧
      (generate_answer true results (Except.error msg)).sources = []) ∧
    (∀ llm, (generate_answer false results llm).confidence = 0 ∧
      (generate_answer false results llm).sources = []) := by
  by_cases h : results = []
  · subst h
    refine ⟨fun _ => rfl, fun hne => absurd rfl hne, ?_, fun msg => ⟨rfl, rfl⟩,
      fun llm => ⟨rfl, rfl⟩⟩
    simp [generate_answer]
  · have hg : (generate_answer true results (Except.ok completion)).confidence =
        confidenceScore (avgRelevance (results.map mkSourceRef)) := by
      simp [generate_answer, h]
    refine ⟨fun he => absurd he h, fun _ => ?_, ?_, fun msg => ?_, fun llm => ?_⟩
    · rw [hg]
      exact confidenceScore_mem _
    · rw [hg]
      constructor
      · intro h0
        have hlow := (confidenceScore_mem (avgRelevance (results.map mkSourceRef))).1
        rw [h0] at hlow
        norm_num at hlow
      · intro he
        exact absurd he h
    · constructor <;> simp [generate_answer, h]
    · constructor <;> simp [generate_answer]

/-- Witness for the amended C4 theorem at one source of distance one half
and at zero sources. -/
theorem confidence_bounds_all_paths_witness :
    (2/5 ≤ (generate_answer true
        [{ document := "chunk", metadata_document_id := 3
           metadata_chunk_index := 0, distance := some (1/2) }]
        (Except.ok "an answer")).confidence ∧
     (generate_answer true
        [{ document := "chunk", metadata_document_id := 3
           metadata_chunk_index := 0, distance := some (1/2) }]
        (Except.ok "an answer")).confidence ≤ 19/20) ∧
    generate_answer true [] (Except.ok "an answer") =
      { answer := "No relevant information found in the knowledge base."
        confidence := 0
        sources := [] } :=
  ⟨(confidence_bounds_all_paths
      [{ document := "chunk", metadata_document_id := 3
         metadata_chunk_index := 0, distance := some (1/2) }] "an answer").2.1
      (by simp),
   (confidence_bounds_all_paths [] "an answer").1 rfl⟩

/-! ## Claim C7: distance-to-similarity conversion -/

theorem sourceDistance_some (x : ℚ) : sourceDistance (some x) = if x = 0 then 1 else x := rfl

theorem similarity_at_zero : similarityOfDistance (some 0) = 1/2 := by
  unfold similarityOfDistance
  rw [sourceDistance_some, if_pos rfl]
  rw [min_eq_right (by norm_num : (1:ℚ) - 1/2 ≤ 1)]
  rw [max_eq_right (by norm_num : (0:ℚ) ≤ 1 - 1/2)]
  norm_num

/-- Claim C7 is refuted by the code at d = 0: the falsy-value guard replaces
a zero distance by 1.0, so an identical match receives relevance 0.5 where
the spec formula clamp(1 - d/2, 0, 1) gives 1; away from 0 the two agree. -/
theorem distance_zero_similarity_bug :
    (generate_answer true
        [{ document := "chunk", metadata_document_id := 7
           metadata_chunk_index := 0, distance := some 0 }]
        (Except.ok "answer")).sources =
      [{ document_id := 7, chunk_index := 0, relevance_score := 1/2 }] ∧
    specSimilarity 0 = 1 ∧
    (1:ℚ)/2 ≠ 1 ∧
    (∀ d : ℚ, similarityOfDistance (some d) =
      if d = 0 then 1/2 else specSimilarity d) := by
  refine ⟨?_, ?_, by norm_num, ?_⟩
  · simp [generate_answer, mkSourceRef, similarity_at_zero]
  · unfold specSimilarity
    rw [show (1:ℚ) - 0/2 = 1 by norm_num, min_self]
    rw [max_eq_right (by norm_num : (0:ℚ) ≤ 1)]
  · intro d
    by_cases hd : d = 0
    · subst hd
      rw [if_pos rfl]
      exact similarity_at_zero
    · rw [if_neg hd]
      unfold similarityOfDistance specSimilarity
      rw [sourceDistance_some, if_neg hd]

/-! ## Claim C1: exhausted retries in the Generate stage -/

/-- Claim C1 fails on the Celery path: when one attempt exhausts its
retries, generate_answer_for_question re-raises, so the chord callback and
finalize_task never run and the ProcessingTask row is left in status
processing with no result; the threading path on the same outcomes does
complete with the failed attempt excluded. -/
theorem celery_exhausted_retry_skips_finalize :
    celeryChordGenerate processingTask50 1 [11] [GenOutcome.retriesExhausted] = processingTask50 ∧
    processingTask50.status = "processing" ∧
    (celeryChordGenerate processingTask50 1 [11] [GenOutcome.retriesExhausted]).result = none ∧
    (threadingGeneratePhase processingTask50 1 [11] [GenOutcome.retriesExhausted]).status = "completed" ∧
    (threadingGeneratePhase processingTask50 1 [11] [GenOutcome.retriesExhausted]).result =
      some { rfp_document_id := 1, questions_count := 1, answers_count := 0, answers := [] } :=
  ⟨rfl, rfl, rfl, rfl, rfl⟩

/-! ## Claim C2: per-attempt progress updates -/

/-- Claim C2 counterexample: with N = 1 and one completed attempt the
Celery path writes progress 95, not the claimed 50 + floor(1/1 times 50) = 100. -/
theorem celery_progress_multiplier_counterexample :
    (celeryAnswerProgressUpdate processingTask50 1 1).progress = 95 ∧
    50 + 1 * 50 / 1 = 100 ∧ (95:Nat) ≠ 100 :=
  ⟨rfl, rfl, by decide⟩

/-- Claim C2 (amended): after each successful attempt the threading path
writes progress = 50 + floor(completed/N times 50) (reaching 100 at N of N)
while the Celery path writes 50 + floor(completed/N times 45) (reaching
only 95); both write current_step = Generated completed/N answers. -/
theorem answer_progress_update_formulas (task : TaskRec) (c n : Nat)
    (h0 : 0 < n) (hc : c ≤ n) :
    (threadingAnswerProgressUpdate task c n).progress = 50 + c * 50 / n ∧
    (celeryAnswerProgressUpdate task c n).progress = 50 + c * 45 / n ∧
    (threadingAnswerProgressUpdate task c n).current_step = genStepLabel c n ∧
    (celeryAnswerProgressUpdate task c n).current_step = genStepLabel c n ∧
    (celeryAnswerProgressUpdate task c n).progress ≤ 95 ∧
    (threadingAnswerProgressUpdate task c n).progress ≤ 100 ∧
    (celeryAnswerProgressUpdate task n n).progress = 95 ∧
    (threadingAnswerProgressUpdate task n n).progress = 100 := by
  have h45 : c * 45 / n ≤ 45 := by
    calc c * 45 / n ≤ n * 45 / n := Nat.div_le_div_right (Nat.mul_le_mul_right 45 hc)
    _ = 45 := by rw [Nat.mul_comm]; exact Nat.mul_div_cancel 45 h0
  have h50 : c * 50 / n ≤ 50 := by
    calc c * 50 / n ≤ n * 50 / n := Nat.div_le_div_right (Nat.mul_le_mul_right 50 hc)
    _ = 50 := by rw [Nat.mul_comm]; exact Nat.mul_div_cancel 50 h0
  have he45 : n * 45 / n = 45 := by rw [Nat.mul_comm]; exact Nat.mul_div_cancel 45 h0
  have he50 : n * 50 / n = 50 := by rw [Nat.mul_comm]; exact Nat.mul_div_cancel 50 h0
  refine ⟨rfl, rfl, rfl, rfl, ?_, ?_, ?_, ?_⟩
  · show 50 + c * 45 / n ≤ 95
    omega
  · show 50 + c * 50 / n ≤ 100
    omega
  · show 50 + n * 45 / n = 95
    omega
  · show 50 + n * 50 / n = 100
    omega

/-- Witness for the amended C2 theorem with 2 of 2 attempts complete. -/
theorem answer_progress_update_formulas_witness :
    (celeryAnswerProgressUpdate processingTask50 2 2).progress = 95 ∧
    (threadingAnswerProgressUpdate processingTask50 2 2).progress = 100 :=
  ⟨(answer_progress_update_formulas processingTask50 2 2 (by decide) (by decide)).2.2.2.2.2.2.1,
   (answer_progress_update_formulas processingTask50 2 2 (by decide) (by decide)).2.2.2.2.2.2.2⟩

/-! ## Claim C9: manual edits versus regeneration -/

/-- Sample generated answer row before any edit. -/
def baseAnswer : AnswerRec :=
  { answer_text := "generated text"
    confidence_score := 1/2
    source_documents := []
    edited := false
    edited_at := none
    generated_at := 0 }

/-- Claim C9 fails on the code: update_or_create with defaults that omit the
edited flag replaces the text of a manually edited answer while leaving
edited = true, so the edit is silently overwritten without the flag being
cleared. -/
theorem regeneration_overwrites_edited_answer :
    (editAnswer baseAnswer "manually edited text" 1).edited = true ∧
    (answerUpsert (some (editAnswer baseAnswer "manually edited text" 1))
        { answer := "regenerated text", confidence := 3/4, sources := [] } 2).answer_text
      = "regenerated text" ∧
    (answerUpsert (some (editAnswer baseAnswer "manually edited text" 1))
        { answer := "regenerated text", confidence := 3/4, sources := [] } 2).answer_text
      ≠ "manually edited text" ∧
    (answerUpsert (some (editAnswer baseAnswer "manually edited text" 1))
        { answer := "regenerated text", confidence := 3/4, sources := [] } 2).edited = true ∧
    (answerUpsert (some (editAnswer baseAnswer "manually edited text" 1))
        { answer := "regenerated text", confidence := 3/4, sources := [] } 2).edited_at
      = some 1 :=
  ⟨rfl, rfl, by decide, rfl, rfl⟩

/-! ## Claim C5: question re-extraction replaces rows densely numbered 1..k -/

theorem createQuestions_map_number (doc : Nat) :
    ∀ (nextId num : Nat) (ts : List String),
      (createQuestions doc nextId num ts).map (fun q => q.question_number)
        = List.range' num ts.length := by
  intro nextId num ts
  induction ts generalizing nextId num with
  | nil => simp [createQuestions, List.range']
  | cons t ts ih => simp [createQuestions, List.range', ih]

theorem createQuestions_doc (doc : Nat) :
    ∀ (nextId num : Nat) (ts : List String) (q : QuestionRow),
      q ∈ createQuestions doc nextId num ts → q.rfp_document = doc := by
  intro nextId num ts
  induction ts generalizing nextId num with
  | nil => intro q hq; simp [createQuestions] at hq
  | cons t ts ih =>
    intro q hq
    simp only [createQuestions, List.mem_cons] at hq
    rcases hq with h | h
    · subst h; rfl
    · exact ih _ _ q h

/-- Claim C5: after re-extraction the questions of the document are exactly
the k fresh rows numbered 1..k in order (no gaps, no duplicates), the
answers of every prior question of that document are gone by cascade, and
no answer row is ever added by the operation. -/
theorem reextraction_replaces_questions (db : QADb) (doc : Nat)
    (extracted : List String) (nextId : Nat) :
    (((reextractQuestions db doc extracted nextId).questions.filter
        (fun q => q.rfp_document == doc)).map (fun q => q.question_number))
      = List.range' 1 extracted.length ∧
    (∀ a ∈ (reextractQuestions db doc extracted nextId).answers,
      ∀ q ∈ db.questions, q.rfp_document = doc → a.question ≠ q.id) ∧
    (∀ a ∈ (reextractQuestions db doc extracted nextId).answers, a ∈ db.answers) := by
  unfold reextractQuestions deleteQuestionsCascade
  refine ⟨?_, ?_, ?_⟩
  · rw [List.filter_append]
    have h1 : (db.questions.filter (fun q => !(q.rfp_document == doc))).filter
        (fun q => q.rfp_document == doc) = [] := by
      rw [List.filter_filter]
      apply List.filter_eq_nil_iff.mpr
      intro q _
      cases h : q.rfp_document == doc <;> simp [h]
    have h2 : (createQuestions doc nextId 1 extracted).filter
        (fun q => q.rfp_document == doc) = createQuestions doc nextId 1 extracted := by
      apply List.filter_eq_self.mpr
      intro q hq
      simp [createQuestions_doc doc nextId 1 extracted q hq]
    rw [h1, h2, List.nil_append, createQuestions_map_number]
  · intro a ha q hq hdoc
    have hmem := List.mem_filter.mp ha
    have hnotin : a.question ∉
        ((db.questions.filter (fun q => q.rfp_document == doc)).map (fun q => q.id)) := by
      have := hmem.2
      simpa using this
    intro heq
    apply hnotin
    rw [heq]
    exact List.mem_map.mpr ⟨q, List.mem_filter.mpr ⟨hq, by simp [hdoc]⟩, rfl⟩
  · intro a ha
    exact (List.mem_filter.mp ha).1

/-- Witness for C5 on the sample tables: two fresh questions get numbers
1 and 2, and the surviving answer (of the other document) does not point at
the deleted question. -/
theorem reextraction_replaces_questions_witness :
    (((reextractQuestions sampleQADb 1 ["first new question", "second new question"] 10).questions.filter
        (fun q => q.rfp_document == 1)).map (fun q => q.question_number)) = [1, 2] ∧
    ({ id := 8, question := 6 } : AnswerRow).question ≠
      ({ id := 5, rfp_document := 1, question_text := "old question", question_number := 1 } : QuestionRow).id := by
  constructor
  · rw [(reextraction_replaces_questions sampleQADb 1
      ["first new question", "second new question"] 10).1]
    rfl
  · exact (reextraction_replaces_questions sampleQADb 1
      ["first new question", "second new question"] 10).2.1
      { id := 8, question := 6 } (by decide)
      { id := 5, rfp_document := 1, question_text := "old question", question_number := 1 }
      (by decide) rfl

/-! ## Claim C6: fatal failures of the Extract stage -/

/-- Claim C6: a falsy extracted text fails the task with the recorded
message; a truthy text with zero questions from both extraction methods
fails the task with the no-questions message; and the combined extraction
is empty exactly when the LLM parse and the regex fallback are both empty. -/
theorem extract_stage_fatal_failures (task : TaskRec) (db : QADb)
    (rfp_document_id nextId : Nat) (inp : ExtractInputs) :
    (pyTextTruthy inp.text = false →
      (extract_and_generate_step task db rfp_document_id inp nextId).1.status = "failed" ∧
      (extract_and_generate_step task db rfp_document_id inp nextId).1.error =
        some "Failed to extract text from RFP document") ∧
    (pyTextTruthy inp.text = true →
      extract_questions_from_rfp inp.llmContent inp.fallbackCandidates = [] →
      (extract_and_generate_step task db rfp_document_id inp nextId).1.status = "failed" ∧
      (extract_and_generate_step task db rfp_document_id inp nextId).1.error =
        some "No questions found in RFP document") ∧
    (∀ content fb, extract_questions_from_rfp (some content) fb = [] ↔
      (parseLLMQuestions content = [] ∧ fallback_question_extraction fb = [])) := by
  refine ⟨?_, ?_, ?_⟩
  · intro h
    refine ⟨?_, ?_⟩ <;> simp [extract_and_generate_step, h]
  · intro ht hq
    refine ⟨?_, ?_⟩ <;> simp [extract_and_generate_step, ht, hq]
  · intro content fb
    unfold extract_questions_from_rfp
    by_cases hp : parseLLMQuestions content = []
    · simp [hp]
    · simp [hp]

/-- Witness for C6: extraction returning no text, and a text whose
extraction finds no questions by either method. -/
theorem extract_stage_fatal_failures_witness :
    (extract_and_generate_step processingTask50 sampleQADb 1
      { text := none, llmContent := none, fallbackCandidates := [] } 10).1.status = "failed" ∧
    (extract_and_generate_step processingTask50 sampleQADb 1
      { text := some "rfp body text", llmContent := none, fallbackCandidates := [] } 10).1.error =
      some "No questions found in RFP document" := by
  constructor
  · exact ((extract_stage_fatal_failures processingTask50 sampleQADb 1 10
      { text := none, llmContent := none, fallbackCandidates := [] }).1 rfl).1
  · exact ((extract_stage_fatal_failures processingTask50 sampleQADb 1 10
      { text := some "rfp body text", llmContent := none, fallbackCandidates := [] }).2.1 rfl rfl).2

/-! ## Claim C8: ingestion of a processed document is a no-op -/

theorem process_document_for_rag_fail (vs : VectorStoreState) (docId : Nat)
    (text : Option String) (chunks : List String) (addOk : Bool)
    (h : (process_document_for_rag vs docId text chunks addOk).2 = false) :
    (process_document_for_rag vs docId text chunks addOk).1 = vs := by
  unfold process_document_for_rag add_document at *
  split_ifs at * <;> simp_all

/-- Claim C8: a knowledge-base document already marked processed is skipped
with the document row and the vector store untouched, and consequently
running the ingestion step twice (under the same external inputs) leaves
exactly the state of running it once. -/
theorem kb_ingestion_idempotent (env : IngestEnv) (doc : KBDocRec) (vs : VectorStoreState) :
    (doc.processed = true → process_kb_document env doc vs = (doc, vs)) ∧
    (process_kb_document env (process_kb_document env doc vs).1
        (process_kb_document env doc vs).2 = process_kb_document env doc vs) := by
  constructor
  · intro h
    unfold process_kb_document
    rw [if_pos h]
  · by_cases h : doc.processed
    · have h1 : process_kb_document env doc vs = (doc, vs) := by
        unfold process_kb_document
        rw [if_pos h]
      rw [h1]
      simp [h1]
    · cases hs : (process_document_for_rag vs doc.id env.text env.chunks env.addOk).2 with
      | false =>
        have h1 : process_kb_document env doc vs =
            (doc, (process_document_for_rag vs doc.id env.text env.chunks env.addOk).1) := by
          unfold process_kb_document
          rw [if_neg h]
          simp [hs]
        have hv := process_document_for_rag_fail vs doc.id env.text env.chunks env.addOk hs
        rw [h1, hv]
        · unfold process_kb_document
          rw [if_neg h]
          simp [hs, hv]
      | true =>
        have h1 : process_kb_document env doc vs =
            ({ doc with processed := true, processed_at := some env.now },
             (process_document_for_rag vs doc.id env.text env.chunks env.addOk).1) := by
          unfold process_kb_document
          rw [if_neg h]
          simp [hs]
        rw [h1]
        unfold process_kb_document
        simp

/-- Witness for C8 on a concrete processed document. -/
theorem kb_ingestion_idempotent_witness :
    process_kb_document
      { text := some "kb text", chunks := ["kb text"], addOk := true, now := 7 }
      { id := 4, processed := true, processed_at := some 3 }
      { entries := [(4, ["kb text"])] }
    = ({ id := 4, processed := true, processed_at := some 3 },
       { entries := [(4, ["kb text"])] }) :=
  (kb_ingestion_idempotent
    { text := some "kb text", chunks := ["kb text"], addOk := true, now := 7 }
    { id := 4, processed := true, processed_at := some 3 }
    { entries := [(4, ["kb text"])] }).1 rfl

/-! ## Claim C10: termination of chunk_text -/

theorem chunkTextAux_step (text : List Char) (cs co fuel : Nat) (start : Int)
    (chunks : List (List Char)) (h : start < (text.length : Int)) :
    chunkTextAux text cs co (fuel + 1) start chunks =
      chunkTextAux text cs co fuel (chunkEnd text cs start - co)
        (if pyStrip (pySlice text start (chunkEnd text cs start)) = [] then chunks
         else chunks ++ [pyStrip (pySlice text start (chunkEnd text cs start))]) := by
  rw [chunkTextAux]
  simp only [if_pos h]

set_option maxRecDepth 100000 in
theorem stall_no_progress : chunkEnd stallText 1000 0 - ((200 : Nat) : Int) = 0 := by decide

set_option maxRecDepth 100000 in
theorem stall_start_lt : (0 : Int) < (stallText.length : Int) := by decide

theorem stall_aux : ∀ fuel chunks, chunkTextAux stallText 1000 200 fuel 0 chunks = none := by
  intro fuel
  induction fuel with
  | zero => intro chunks; rfl
  | succ n ih =>
    intro chunks
    rw [chunkTextAux_step stallText 1000 200 n 0 chunks stall_start_lt]
    rw [stall_no_progress]
    exact ih _

set_option maxRecDepth 100000 in
/-- Claim C10 fails on the code: on stallText (a paragraph break exactly 200
characters in, ample text after it) the window break lands chunk_overlap
characters past the window start, so start = end - chunk_overlap never
advances and the loop never exits, whatever the fuel; chunk_text does not
terminate on every input with the default parameters. -/
theorem chunk_text_nontermination :
    (∀ fuel chunks, chunkTextAux stallText 1000 200 fuel 0 chunks = none) ∧
    (∀ fuel, chunk_text stallText 1000 200 fuel = none) ∧
    chunkEnd stallText 1000 0 - ((200 : Nat) : Int) = 0 ∧
    stallText.length = 1003 := by
  refine ⟨stall_aux, ?_, stall_no_progress, by decide⟩
  intro fuel
  unfold chunk_text
  rw [if_neg (by decide : ¬ stallText = [])]
  exact stall_aux fuel []
